import Mathlib

/-!
Shallow embedding of the two AWS Lambda handlers of the `iot-aws-tcc`
repository:

* `src/lambda_functions/firehose-biorreator-transform.py` — the sensor
  record transformer invoked by Kinesis Firehose, and
* `src/lambda_functions/biorreator-alarm-processor.py` — the alarm
  notifier invoked by the IoT rule.

JSON values are modelled by the inductive `JVal`; Python dictionaries
decoded from JSON are association lists `List (String × JVal)`.
Python code that can raise is embedded in `Except String`; the ambient
clock (`datetime.utcnow()`) is passed explicitly as a `DateTime`
parameter, and the external collaborators (SES, S3) are passed as
explicit outcome parameters.
-/

/-- A JSON value, as produced by `json.loads`. JSON numbers (Python
`int`/`float`) are modelled by `Rat`. -/
inductive JVal where
  | null
  | bool (b : Bool)
  | num (q : Rat)
  | str (s : String)
  | arr (xs : List JVal)
  | obj (fields : List (String × JVal))

instance : Inhabited JVal := ⟨.null⟩

/-- A decoded top-level JSON object (a Python `dict`), as an
association list. JSON objects have unique keys, so first-match lookup
agrees with Python dict lookup. -/
def Payload := List (String × JVal)

/-- Python `dict.get(key)` / `key in dict`: first-match association-list lookup. -/
def pget : List (String × JVal) → String → Option JVal
  | [], _ => none
  | (k, v) :: rest, key => if k = key then some v else pget rest key

/-- Python truthiness of a JSON value (`bool(v)`). -/
def pyTruthy : JVal → Bool
  | .null => false
  | .bool b => b
  | .num q => q != 0
  | .str s => s != ""
  | .arr xs => !xs.isEmpty
  | .obj fs => !fs.isEmpty

/-- Python `len(v)`; raises `TypeError` on values with no length. -/
def pyLen : JVal → Except String Nat
  | .arr xs => .ok xs.length
  | .str s => .ok s.length
  | .obj fs => .ok fs.length
  | _ => .error "object has no len()"

/-- Python `v[0]`; raises on non-subscriptable values and on empty
sequences. Indexing a string yields its first character as a string. -/
def pyIndex0 : JVal → Except String JVal
  | .arr (x :: _) => .ok x
  | .arr [] => .error "list index out of range"
  | .str s =>
      match s.data with
      | c :: _ => .ok (.str (String.mk [c]))
      | [] => .error "string index out of range"
  | _ => .error "object is not subscriptable"

/-- Python `str(v)`. The container cases are abbreviated renderings
(the claims under verification never render containers); the scalar
cases match CPython (`str(None) = "None"`, `str(True) = "True"`, …).
Integral numbers render without a decimal point, as CPython renders
`int`s. -/
def pyStr : JVal → String
  | .null => "None"
  | .bool true => "True"
  | .bool false => "False"
  | .num q => if q.den = 1 then toString q.num else toString q
  | .str s => s
  | .arr _ => "[...]"
  | .obj _ => "\x7b...\x7d"

/-- Is the character an ASCII digit? -/
def isDigit (c : Char) : Bool := '0' ≤ c ∧ c ≤ '9'

/-- Split a character list at every occurrence of `sep` (Python
`str.split(sep)` over the characters; `"".split(sep) = ['']`). -/
def splitOnChar (sep : Char) : List Char → List (List Char)
  | [] => [[]]
  | c :: rest =>
      let r := splitOnChar sep rest
      if c = sep then [] :: r
      else
        match r with
        | g :: gs => (c :: g) :: gs
        | [] => [[c]]

/-- Python `s.split(sep)` for a one-character separator. -/
def pySplit (s : String) (sep : Char) : List String :=
  (splitOnChar sep s.data).map fun cs => String.mk cs

/-- Numeric value of a digit list (most significant first); `none` if
empty or a non-digit appears. -/
def digitsToNat? (cs : List Char) : Option Nat :=
  if cs ≠ [] ∧ cs.all isDigit then
    some (cs.foldl (fun acc c => acc * 10 + (c.toNat - '0'.toNat)) 0)
  else none

/-- Python `int(s)` on a string: optional sign followed by digits
(whitespace/underscore tolerance omitted; the claims never rely on it). -/
def parseIntLit? (s : String) : Option Int :=
  match s.data with
  | '-' :: rest => (digitsToNat? rest).map fun n => -(n : Int)
  | '+' :: rest => (digitsToNat? rest).map fun n => (n : Int)
  | cs => (digitsToNat? cs).map fun n => (n : Int)

/-- Python `float(s)` on a string: optional sign, digits with an
optional fractional part (exponent and inf/nan forms omitted; the
claims never rely on them). -/
def parseFloatLit? (s : String) : Option Rat :=
  let core : List Char → Option Rat := fun cs =>
    let intPart := cs.takeWhile isDigit
    let rest := cs.dropWhile isDigit
    match rest with
    | [] => (digitsToNat? intPart).map fun n => (n : Rat)
    | '.' :: frac =>
        if frac.all isDigit ∧ (intPart ≠ [] ∨ frac ≠ []) then
          let ip : Nat := (digitsToNat? intPart).getD 0
          let fp : Nat := (digitsToNat? frac).getD 0
          some ((ip : Rat) + (fp : Rat) / ((10 : Rat) ^ frac.length))
        else none
    | _ => none
  match s.data with
  | '-' :: rest => (core rest).map Neg.neg
  | '+' :: rest => core rest
  | cs => core cs

/-- Truncation toward zero of a rational, as Python `int(float)`. -/
def ratTrunc (q : Rat) : Int :=
  if 0 ≤ q then ⌊q⌋ else ⌈q⌉

/-- Python `float(v)`: numbers pass through, `bool` maps to 0/1,
strings are parsed as decimal literals, everything else raises. -/
def pyFloat : JVal → Except String Rat
  | .num q => .ok q
  | .bool b => .ok (if b then 1 else 0)
  | .str s =>
      match parseFloatLit? s with
      | some q => .ok q
      | none => .error ("could not convert string to float: " ++ s)
  | _ => .error "float() argument has the wrong type"

/-- Python `int(v)`: numbers truncate toward zero, `bool` maps to 0/1,
strings are parsed as integer literals, everything else raises. -/
def pyInt : JVal → Except String Int
  | .num q => .ok (ratTrunc q)
  | .bool b => .ok (if b then 1 else 0)
  | .str s =>
      match parseIntLit? s with
      | some n => .ok n
      | none => .error ("invalid literal for int() with base 10: " ++ s)
  | _ => .error "int() argument has the wrong type"

/-- A calendar instant, as used from `datetime`. -/
structure DateTime where
  year : Nat
  month : Nat
  day : Nat
  hour : Nat
  minute : Nat
  second : Nat
deriving Repr, DecidableEq, Inhabited

/-- Two-digit zero-padded rendering (`strftime` `%m`, `%d`, `%H`, …). -/
def pad2 (n : Nat) : String :=
  if n < 10 then "0" ++ toString n else toString n

/-- The `strftime('%Y')` rendering of the year (no padding for the
realistic 4-digit range). -/
def fmtYear (n : Nat) : String := toString n

/-- Rendering for `strftime('%Y-%m-%d %H:%M:%S')`. -/
def fmtTs (dt : DateTime) : String :=
  fmtYear dt.year ++ "-" ++ pad2 dt.month ++ "-" ++ pad2 dt.day ++ " " ++
    pad2 dt.hour ++ ":" ++ pad2 dt.minute ++ ":" ++ pad2 dt.second

/-- Is `year` a leap year (Gregorian)? -/
def isLeap (year : Nat) : Bool :=
  year % 4 = 0 ∧ (year % 100 ≠ 0 ∨ year % 400 = 0)

/-- Days in a month, as validated by the `datetime` constructor. -/
def daysInMonth (year month : Nat) : Nat :=
  if month = 2 then (if isLeap year then 29 else 28)
  else if month = 4 ∨ month = 6 ∨ month = 9 ∨ month = 11 then 30
  else 31

/-- A 1-or-2-digit numeric field of `strptime` (`%m`, `%d`, `%H`, `%M`,
`%S` all match one or two digits). -/
def field2? (s : String) : Option Nat :=
  if s.length = 1 ∨ s.length = 2 then digitsToNat? s.data else none

/-- Model of `datetime.strptime(s, '%Y-%m-%d %H:%M:%S')`: the year is exactly
four digits; month/day/hour/minute/second are one or two digits within
their ranges; the date must exist on the calendar; the whole string
must be consumed. Returns `none` where CPython raises `ValueError`. -/
def parseTimestamp (s : String) : Option DateTime :=
  match pySplit s ' ' with
  | [datePart, timePart] =>
    match pySplit datePart '-', pySplit timePart ':' with
    | [ys, ms, ds], [hs, mins, secs] =>
      if ys.length = 4 then
        match digitsToNat? ys.data, field2? ms, field2? ds,
              field2? hs, field2? mins, field2? secs with
        | some y, some mo, some d, some h, some mi, some sec =>
          if 1 ≤ mo ∧ mo ≤ 12 ∧ 1 ≤ d ∧ d ≤ daysInMonth y mo ∧
             h ≤ 23 ∧ mi ≤ 59 ∧ sec ≤ 59 then
            some ⟨y, mo, d, h, mi, sec⟩
          else none
        | _, _, _, _, _, _ => none
      else none
    | _, _ => none
  | _ => none

/-! ## Sensor record transformer
(`firehose-biorreator-transform.py`) -/

/-- The fixed-schema output record built by
`transform_sensor_data_with_partitioning`, field for field. A Python
`None` in a numeric slot is `Option.none`; `timestamp` is whatever
JSON value sat under `ts` (or the formatted current instant);
`equipment` is `none` when `extract_equipment_id` returned Python
`None`. -/
structure Transformed where
  ph : Option Rat
  rpm : Option Int
  tcd : Option Rat
  temperatura : Option Rat
  timestamp : JVal
  equipment : Option String
  partition_year : String
  partition_month : String
  partition_day : String
  partition_hour : String

/-- Model of `extract_equipment_id(data, record)`: priority chain over the
decoded payload. Note the Python `elif` structure: when `topic` is
present but splits into fewer than two segments, the function falls
off the chain and returns `None` (here `Option.none`); `deviceId` is
only consulted when `topic` is absent. Splitting a non-string `topic`
raises. -/
def extract_equipment_id (data : Payload) : Except String (Option String) :=
  match pget data "equipment" with
  | some v => .ok (some (pyStr v))
  | none =>
    match pget data "topic" with
    | some (.str s) =>
        let topic_parts := pySplit s '/'
        if topic_parts.length ≥ 2 then .ok (some (topic_parts.get! 1))
        else .ok none
    | some _ => .error "split on non-string topic"
    | none =>
      match pget data "deviceId" with
      | some v => .ok (some (pyStr v))
      | none => .ok (some "UNKNOWN")

/-- Model of `data.get('d', {})` followed by attribute access: yields the
fields of the `d` object, `[]` when `d` is absent, and raises when `d`
holds a non-object (Python `AttributeError` on `.get`). -/
def getSensorFields (data : Payload) : Except String (List (String × JVal)) :=
  match (pget data "d").getD (.obj []) with
  | .obj fs => .ok fs
  | _ => .error "d is not an object"

/-- The raw `ph` value: `sensor_data.get('pH', sensor_data.get('ph', [None]))`. -/
def phRaw (sd : List (String × JVal)) : JVal :=
  (pget sd "pH").getD ((pget sd "ph").getD (.arr [.null]))

/-- The raw `rpm` value: `sensor_data.get('rpm', [None])`. -/
def rpmRaw (sd : List (String × JVal)) : JVal :=
  (pget sd "rpm").getD (.arr [.null])

/-- The raw `tcd` value: `sensor_data.get('tcd', [None])`. -/
def tcdRaw (sd : List (String × JVal)) : JVal :=
  (pget sd "tcd").getD (.arr [.null])

/-- The raw `temperatura` value: `sensor_data.get('temperatura', [None])`. -/
def tempRaw (sd : List (String × JVal)) : JVal :=
  (pget sd "temperatura").getD (.arr [.null])

/-- One sensor field's three-branch normalization: non-empty list with
non-`None` head → convert the head; non-`None` non-list → convert the
value itself; otherwise → `None`. Conversion errors propagate (they
are not caught here). -/
def normalizeField (conv : JVal → Except String α) : JVal → Except String (Option α)
  | .arr (x :: _) =>
      match x with
      | .null => .ok none
      | x => (conv x).map some
  | .arr [] => .ok none
  | .null => .ok none
  | v => (conv v).map some

/-- The `ts` value used throughout the transform:
`data.get('ts', datetime.utcnow().strftime('%Y-%m-%d %H:%M:%S'))`. -/
def tsValue (data : Payload) (now : DateTime) : JVal :=
  (pget data "ts").getD (.str (fmtTs now))

/-- The partition tuple (year, month, day, hour): components of the
parsed timestamp on success, components of the current instant when
`strptime` raises (non-string `ts` included). -/
def partitionParts (timestamp : JVal) (now : DateTime) :
    String × String × String × String :=
  match timestamp with
  | .str s =>
      match parseTimestamp s with
      | some dt => (fmtYear dt.year, pad2 dt.month, pad2 dt.day, pad2 dt.hour)
      | none => (fmtYear now.year, pad2 now.month, pad2 now.day, pad2 now.hour)
  | _ => (fmtYear now.year, pad2 now.month, pad2 now.day, pad2 now.hour)

/-- The four field normalizations of the transform, in source order:
an error in an earlier field short-circuits, as the Python exception
does. -/
def transformFields (sd : List (String × JVal)) :
    Except String (Option Rat × Option Int × Option Rat × Option Rat) :=
  match normalizeField pyFloat (phRaw sd) with
  | .error e => .error e
  | .ok ph =>
    match normalizeField pyInt (rpmRaw sd) with
    | .error e => .error e
    | .ok rpm =>
      match normalizeField pyFloat (tcdRaw sd) with
      | .error e => .error e
      | .ok tcd =>
        match normalizeField pyFloat (tempRaw sd) with
        | .error e => .error e
        | .ok temperatura => .ok (ph, rpm, tcd, temperatura)

/-- The body of the `try` block of
`transform_sensor_data_with_partitioning`: an `error` is an exception
reaching the function's `except` handler. The timestamp/partition step
sits between the `d` access and the field extractions, as in the
source; it is total (its parse errors are handled inside
`partitionParts`). -/
def transformBody (data : Payload) (equipment_id : Option String)
    (now : DateTime) : Except String Transformed :=
  match getSensorFields data with
  | .error e => .error e
  | .ok sd =>
    let timestamp := tsValue data now
    let parts := partitionParts timestamp now
    match transformFields sd with
    | .error e => .error e
    | .ok (ph, rpm, tcd, temperatura) =>
      .ok { ph := ph, rpm := rpm, tcd := tcd, temperatura := temperatura,
            timestamp := timestamp, equipment := equipment_id,
            partition_year := parts.1, partition_month := parts.2.1,
            partition_day := parts.2.2.1, partition_hour := parts.2.2.2 }

/-- The `except` handler's fallback record: all numeric fields `None`,
timestamp `data.get('ts', now)`, partition keys from a fresh
`datetime.utcnow()` (the current instant, not the record's timestamp). -/
def fallbackRecord (data : Payload) (equipment_id : Option String)
    (now : DateTime) : Transformed :=
  { ph := none, rpm := none, tcd := none, temperatura := none,
    timestamp := tsValue data now, equipment := equipment_id,
    partition_year := fmtYear now.year, partition_month := pad2 now.month,
    partition_day := pad2 now.day, partition_hour := pad2 now.hour }

/-- Model of `transform_sensor_data_with_partitioning(data, equipment_id)`:
total — any exception in the body produces the fallback record. -/
def transform_sensor_data_with_partitioning (data : Payload)
    (equipment_id : Option String) (now : DateTime) : Transformed :=
  match transformBody data equipment_id now with
  | .ok t => t
  | .error _ => fallbackRecord data equipment_id now

/-- One input record of the Firehose batch event: the opaque
`recordId` and the decoded payload. Base-64 decoding, UTF-8 decoding
and `json.loads` (plus the payload being a JSON object, required by
every attribute access) are abstracted into the `Except`: `.error`
stands for a record whose payload fails to decode to an object. -/
structure FirehoseRecord where
  recordId : String
  data : Except String Payload

/-- One output record returned to Firehose. `data` carries the
transformed record (serialization back to JSON + newline + base-64 is
abstracted away); present exactly on the `Ok` path. -/
structure OutputRecord where
  recordId : String
  result : String
  data : Option Transformed

/-- The per-record body of `lambda_handler`'s loop: decode, extract
equipment id, transform; any exception yields `ProcessingFailed` for
this record alone. -/
def processRecord (now : DateTime) (record : FirehoseRecord) : OutputRecord :=
  match record.data.bind fun data =>
        (extract_equipment_id data).map fun eq => (data, eq) with
  | .ok (data, eq) =>
      { recordId := record.recordId, result := "Ok",
        data := some (transform_sensor_data_with_partitioning data eq now) }
  | .error _ =>
      { recordId := record.recordId, result := "ProcessingFailed", data := none }

/-- Model of `lambda_handler(event, context)` of the sensor transformer: maps
the per-record body over the batch, in order. -/
def lambda_handler (now : DateTime) (records : List FirehoseRecord) :
    List OutputRecord :=
  records.map (processRecord now)

/-! ## Alarm notifier
(`biorreator-alarm-processor.py`) -/

/-- The environment-sourced configuration of the alarm notifier:
`S3_BUCKET`, `S3_PREFIX` (called `keyPre` here) and `SES_FROM`.
(`SNS_TOPIC_ARN` is read but unused by the logic and is omitted.) -/
structure AlarmConfig where
  s3Bucket : String
  keyPre : String
  sesFrom : String

/-- Python `v.get(key, dflt)` on a JSON value: dictionary lookup with a
default; raises `AttributeError` when `v` is not a dict. -/
def jget (v : JVal) (key : String) (dflt : JVal) : Except String JVal :=
  match v with
  | .obj fs => .ok ((pget fs key).getD dflt)
  | _ => .error "get on non-object"

/-- The audit record `alarm_record` persisted to S3. The
`ses_message_id` and `email_error` keys are only added on delivery
success / failure respectively (`none` = key absent). -/
structure AlarmAudit where
  alarm_message : JVal
  email_recipients : List JVal
  timestamp : JVal
  equipment : JVal
  processed_at : String
  email_sent : Bool
  test_mode : Bool
  raw_payload : JVal
  ses_message_id : Option String
  email_error : Option String
deriving Inhabited

/-- Model of `alarm_array[0] if alarm_array and len(alarm_array) > 0 else
'Unknown alarm'`: truthiness test, then `len` (which raises on
non-sized values), then subscripting (which raises on
non-subscriptable values). -/
def alarmMessageOf (alarm_array : JVal) : Except String JVal :=
  if pyTruthy alarm_array then
    match pyLen alarm_array with
    | .error e => .error e
    | .ok n => if n > 0 then pyIndex0 alarm_array else .ok (.str "Unknown alarm")
  else .ok (.str "Unknown alarm")

/-- Model of `email_array if isinstance(email_array, list) and email_array else []`. -/
def emailListOf (email_array : JVal) : List JVal :=
  match email_array with
  | .arr xs => if xs.isEmpty then [] else xs
  | _ => []

/-- The email fallback: `if not email_list: email_list =
['biorreator.xxx@gmail.com']`. The fallback address is a hard-coded
literal, not `SES_FROM`. -/
def resolvedRecipients (email_array : JVal) : List JVal :=
  let email_list := emailListOf email_array
  if email_list.isEmpty then [.str "biorreator.xxx@gmail.com"] else email_list

/-- Python `', '.join(recipients)`: raises `TypeError` on a non-string item. -/
def joinEmails : List JVal → Except String String
  | [] => .ok ""
  | [.str s] => .ok s
  | .str s :: rest =>
      match joinEmails rest with
      | .error e => .error e
      | .ok r => .ok (s ++ ", " ++ r)
  | _ => .error "sequence item: expected str instance"

/-- Model of `datetime.strptime` applied to the extracted `ts` value: raises
`TypeError` on a non-string and `ValueError` on a string that does not
match the format. -/
def strptimeJ (v : JVal) : Except String DateTime :=
  match v with
  | .str s =>
      match parseTimestamp s with
      | some dt => .ok dt
      | none => .error ("time data does not match format: " ++ s)
  | _ => .error "strptime() argument must be str"

/-- Rendering for `dt.strftime('%Y%m%d%H%M%S')`. -/
def fmtCompact (dt : DateTime) : String :=
  fmtYear dt.year ++ pad2 dt.month ++ pad2 dt.day ++ pad2 dt.hour ++
    pad2 dt.minute ++ pad2 dt.second

/-- The partitioned audit key:
`f"{S3_PREFIX}year={dt.year}/month={dt.month:02d}/day={dt.day:02d}/equipment={equipment}/{dt.strftime('%Y%m%d%H%M%S')}_alarm.json"`
(the year is rendered unpadded, month/day zero-padded, the equipment
value rendered by `str`). -/
def alarmS3Key (keyPre : String) (dt : DateTime) (equipment : JVal) : String :=
  keyPre ++ "year=" ++ toString dt.year ++ "/month=" ++ pad2 dt.month ++
    "/day=" ++ pad2 dt.day ++ "/equipment=" ++ pyStr equipment ++ "/" ++
    fmtCompact dt ++ "_alarm.json"

/-- The plain-text notification body (`text_body`). Static template
whitespace is elided; the dynamic parts appear in source order. -/
def renderTextBody (equipment timestamp alarm_message : JVal)
    (joined sesFrom : String) (now : DateTime) : String :=
  "ALERTA BIORREATOR Equipamento: " ++ pyStr equipment ++
    " Data/Hora: " ++ pyStr timestamp ++ " Mensagem: " ++ pyStr alarm_message ++
    " Destinatários: " ++ joined ++
    " Este é um TESTE do sistema de monitoramento. Remetente: " ++ sesFrom ++
    " Processado: " ++ fmtTs now ++ " UTC"

/-- The rich-text notification body (`html_body`). HTML boilerplate is
elided; the dynamic parts appear in source order. -/
def renderHtmlBody (equipment timestamp alarm_message : JVal)
    (joined sesFrom : String) (now : DateTime) : String :=
  "<html><body>Sistema Biorreator ALERTA BIORREATOR Equipamento: " ++
    pyStr equipment ++ " Data/Hora: " ++ pyStr timestamp ++ " Mensagem: " ++
    pyStr alarm_message ++ " Destinatários: " ++ joined ++
    " Este é um teste do sistema de monitoramento de biorreatores. Remetente: " ++
    sesFrom ++ " Processado: " ++ fmtTs now ++ " UTC</body></html>"

/-- Everything the handler has computed by the time it reaches the
`ses.send_email` call. -/
structure AlarmPieces where
  alarm_message : JVal
  timestamp : JVal
  equipment : JVal
  recipients : List JVal
  record : AlarmAudit
  dt : DateTime
  s3_key : String
  text_body : String
  html_body : String
deriving Inhabited

/-- The extraction/preparation part of the alarm handler's `try`
block, up to (but not including) the `ses.send_email` call: field
extraction, email fallback, audit-record preparation, `strptime` of
the timestamp, S3-key construction and message rendering. An `error`
is an exception that reaches the handler's top-level `except`. -/
def preSend (cfg : AlarmConfig) (now : DateTime) (event : JVal) :
    Except String AlarmPieces :=
  match jget event "d" (.obj []) with
  | .error e => .error e
  | .ok d_data =>
    match jget d_data "alarm" (.arr []) with
    | .error e => .error e
    | .ok alarm_array =>
      match jget d_data "email" (.arr []) with
      | .error e => .error e
      | .ok email_array =>
        match alarmMessageOf alarm_array with
        | .error e => .error e
        | .ok alarm_message =>
          match jget event "ts" (.str (fmtTs now)) with
          | .error e => .error e
          | .ok timestamp =>
            match jget event "equipment" (.str "unknown") with
            | .error e => .error e
            | .ok equipment =>
              let recipients := resolvedRecipients email_array
              let record : AlarmAudit :=
                { alarm_message := alarm_message,
                  email_recipients := recipients,
                  timestamp := timestamp, equipment := equipment,
                  processed_at := fmtTs now, email_sent := false,
                  test_mode := true, raw_payload := event,
                  ses_message_id := none, email_error := none }
              match strptimeJ timestamp with
              | .error e => .error e
              | .ok dt =>
                let s3_key := alarmS3Key cfg.keyPre dt equipment
                match joinEmails recipients with
                | .error e => .error e
                | .ok joined =>
                  .ok { alarm_message := alarm_message,
                        timestamp := timestamp, equipment := equipment,
                        recipients := recipients, record := record,
                        dt := dt, s3_key := s3_key,
                        text_body := renderTextBody equipment timestamp
                          alarm_message joined cfg.sesFrom now,
                        html_body := renderHtmlBody equipment timestamp
                          alarm_message joined cfg.sesFrom now }

/-- The response dict of the alarm handler; `body` is the JSON value
passed to `json.dumps`. -/
structure AlarmResponse where
  statusCode : Nat
  body : JVal

/-- One `s3.put_object` call: bucket, key and the serialized audit
record. -/
structure PutObjectArgs where
  bucket : String
  key : String
  body : AlarmAudit

/-- The handler's observable outcome: the returned response plus the
`s3.put_object` call it issued (`none` when the failure happened
before the audit write was reached). -/
structure AlarmOutcome where
  response : AlarmResponse
  putAttempt : Option PutObjectArgs

/-- The top-level `except` response:
`{'statusCode': 500, 'body': json.dumps({'error': str(e), 'mode': 'TEST'})}`. -/
def errorResponse (e : String) : AlarmResponse :=
  { statusCode := 500, body := .obj [("error", .str e), ("mode", .str "TEST")] }

/-- Model of `lambda_handler(event, context)` of the alarm notifier. The mail
collaborator's outcome (`ses.send_email`: message id or raised error)
and the storage collaborator's outcome (`s3.put_object`) are explicit
parameters. Delivery failure is caught locally, updates the audit
record and never aborts; any other exception reaches the top-level
`except` and becomes a 500 response. -/
def alarm_lambda_handler (cfg : AlarmConfig) (now : DateTime)
    (sesOutcome : Except String String) (s3Outcome : Except String Unit)
    (event : JVal) : AlarmOutcome :=
  match preSend cfg now event with
  | .error e => { response := errorResponse e, putAttempt := none }
  | .ok p =>
    let record :=
      match sesOutcome with
      | .ok mid =>
          { p.record with email_sent := true, ses_message_id := some mid }
      | .error e => { p.record with email_error := some e }
    let put : PutObjectArgs :=
      { bucket := cfg.s3Bucket, key := p.s3_key, body := record }
    match s3Outcome with
    | .error e => { response := errorResponse e, putAttempt := some put }
    | .ok _ =>
      { response :=
          { statusCode := 200,
            body := .obj [("status", .str "success"), ("mode", .str "TEST"),
              ("s3_key", .str p.s3_key), ("equipment", p.equipment),
              ("alarm_message", p.alarm_message),
              ("recipients", .arr p.recipients),
              ("email_sent", .bool record.email_sent),
              ("sender", .str cfg.sesFrom)] },
        putAttempt := some put }

/-- The spec's per-field normalization rule, stated from the spec's
words for comparison with the code's `normalizeField`: a non-empty
sequence with non-null first element normalizes to that element
converted; a present, non-null non-sequence converts directly; an
absent field (the `[None]` default), an empty sequence, a
null-headed sequence or a bare null yields the absent marker. -/
def SpecFieldRule {α : Type} (conv : JVal → Except String α)
    (raw : JVal) (result : Option α) : Prop :=
  (∀ x xs, raw = .arr (x :: xs) → x ≠ .null →
      Except.ok result = (conv x).map some)
  ∧ (raw ≠ .null → (∀ xs, raw ≠ .arr xs) →
      Except.ok result = (conv raw).map some)
  ∧ ((raw = .null ∨ raw = .arr [] ∨ ∃ xs, raw = .arr (.null :: xs)) →
      result = none)

example :
    parseTimestamp "2025-08-31 10:00:00" = some ⟨2025, 8, 31, 10, 0, 0⟩ := by
  decide

example : parseTimestamp "not-a-ts" = none := by decide

example : parseTimestamp "2025-02-30 10:00:00" = none := by decide

example : parseFloatLit? "not-a-number" = none := by rfl

example : pyInt (.str "not-a-number") =
    .error "invalid literal for int() with base 10: not-a-number" := by rfl

/-! ## Helper lemmas -/

/-- The per-record body preserves the record identifier. -/
theorem processRecord_recordId (now : DateTime) (r : FirehoseRecord) :
    (processRecord now r).recordId = r.recordId := by
  unfold processRecord
  split <;> rfl

/-- Every output record is tagged `Ok` (with data) or
`ProcessingFailed` (without data). -/
theorem processRecord_tag (now : DateTime) (r : FirehoseRecord) :
    ((processRecord now r).result = "Ok" ∧ (processRecord now r).data ≠ none) ∨
    ((processRecord now r).result = "ProcessingFailed" ∧
      (processRecord now r).data = none) := by
  unfold processRecord
  split
  · exact Or.inl ⟨rfl, by simp⟩
  · exact Or.inr ⟨rfl, rfl⟩

/-- Inversion of a successful `transformFields`: each of the four
normalizations succeeded with the respective component. -/
theorem transformFields_ok_inv {sd : List (String × JVal)}
    {ph : Option Rat} {rpm : Option Int} {tcd temperatura : Option Rat}
    (h : transformFields sd = .ok (ph, rpm, tcd, temperatura)) :
    normalizeField pyFloat (phRaw sd) = .ok ph ∧
    normalizeField pyInt (rpmRaw sd) = .ok rpm ∧
    normalizeField pyFloat (tcdRaw sd) = .ok tcd ∧
    normalizeField pyFloat (tempRaw sd) = .ok temperatura := by
  unfold transformFields at h
  split at h
  · exact absurd h (by simp)
  next h1 =>
    split at h
    · exact absurd h (by simp)
    next h2 =>
      split at h
      · exact absurd h (by simp)
      next h3 =>
        split at h
        · exact absurd h (by simp)
        next h4 =>
          obtain ⟨rfl, rfl, rfl, rfl⟩ :
              ph = _ ∧ rpm = _ ∧ tcd = _ ∧ temperatura = _ := by
            have := h
            simp only [Except.ok.injEq, Prod.mk.injEq] at this
            exact ⟨this.1.symm, this.2.1.symm, this.2.2.1.symm, this.2.2.2.symm⟩
          exact ⟨h1, h2, h3, h4⟩

/-- Inversion of a successful transform body: the `d` access and all
four field normalizations succeeded, and the envelope fields are as
constructed. -/
theorem transformBody_ok_inv {data : Payload} {eq : Option String}
    {now : DateTime} {t : Transformed}
    (h : transformBody data eq now = .ok t) :
    ∃ sd, getSensorFields data = .ok sd ∧
      transformFields sd = .ok (t.ph, t.rpm, t.tcd, t.temperatura) ∧
      t.timestamp = tsValue data now ∧ t.equipment = eq ∧
      t.partition_year = (partitionParts (tsValue data now) now).1 ∧
      t.partition_month = (partitionParts (tsValue data now) now).2.1 ∧
      t.partition_day = (partitionParts (tsValue data now) now).2.2.1 ∧
      t.partition_hour = (partitionParts (tsValue data now) now).2.2.2 := by
  unfold transformBody at h
  split at h
  · exact absurd h (by simp)
  next sd hsd =>
    split at h
    · exact absurd h (by simp)
    next f ph rpm tcd temperatura hf =>
      refine ⟨sd, hsd, ?_, ?_⟩
      · obtain rfl : _ = t := by
          simpa only [Except.ok.injEq] using h
        exact hf
      · obtain rfl : _ = t := by
          simpa only [Except.ok.injEq] using h
        exact ⟨rfl, rfl, rfl, rfl, rfl, rfl⟩

/-! ## Claims -/

/-- C2: the sensor transformer returns exactly one outcome per input
record, in the same order, with the same record identifier, each
tagged `Ok` (with re-encoded data) or `ProcessingFailed` (without);
each outcome is computed from its own record alone, so a malformed
record never fails the batch. -/
theorem c2_batch_outcomes (now : DateTime) (records : List FirehoseRecord) :
    (lambda_handler now records).length = records.length
  ∧ (lambda_handler now records).map (fun r => r.recordId) =
      records.map (fun r => r.recordId)
  ∧ ∀ r ∈ lambda_handler now records,
      (r.result = "Ok" ∧ r.data ≠ none) ∨
      (r.result = "ProcessingFailed" ∧ r.data = none) := by
  refine ⟨by simp [lambda_handler], ?_, ?_⟩
  · unfold lambda_handler
    rw [List.map_map]
    exact List.map_congr_left fun a _ => processRecord_recordId now a
  · intro r hr
    unfold lambda_handler at hr
    obtain ⟨a, _, rfl⟩ := List.mem_map.mp hr
    exact processRecord_tag now a

/-- Witness for C2 at a concrete two-record batch (one good record,
one undecodable record). -/
theorem c2_batch_outcomes_witness :
    (⟨"r2", "ProcessingFailed", none⟩ : OutputRecord) ∈
      lambda_handler ⟨2025, 8, 31, 10, 0, 0⟩
        [⟨"r1", .ok []⟩, ⟨"r2", .error "bad base64"⟩]
  ∧ (((⟨"r2", "ProcessingFailed", none⟩ : OutputRecord).result = "Ok" ∧
        (⟨"r2", "ProcessingFailed", none⟩ : OutputRecord).data ≠ none) ∨
     ((⟨"r2", "ProcessingFailed", none⟩ : OutputRecord).result =
        "ProcessingFailed" ∧
        (⟨"r2", "ProcessingFailed", none⟩ : OutputRecord).data = none)) := by
  have hm : (⟨"r2", "ProcessingFailed", none⟩ : OutputRecord) ∈
      lambda_handler ⟨2025, 8, 31, 10, 0, 0⟩
        [⟨"r1", .ok []⟩, ⟨"r2", .error "bad base64"⟩] := by
    exact List.Mem.tail _ (List.Mem.head _)
  exact ⟨hm, (c2_batch_outcomes ⟨2025, 8, 31, 10, 0, 0⟩
    [⟨"r1", .ok []⟩, ⟨"r2", .error "bad base64"⟩]).2.2 _ hm⟩

/-- C9: a raw sequence value of length two or more with a non-null
first element normalizes to its converted first element; the
remaining elements are ignored (the result coincides with that of the
singleton sequence). -/
theorem c9_extra_elements_ignored {α : Type} (conv : JVal → Except String α)
    (x y : JVal) (ys : List JVal) (hx : x ≠ .null) :
    normalizeField conv (.arr (x :: y :: ys)) = (conv x).map some
  ∧ normalizeField conv (.arr (x :: y :: ys)) = normalizeField conv (.arr [x]) := by
  cases x
  · exact absurd rfl hx
  all_goals exact ⟨rfl, rfl⟩

/-- Witness for C9: `[5, 9]` under the float conversion normalizes to
the converted first element. -/
theorem c9_extra_elements_ignored_witness :
    (JVal.num 5 ≠ JVal.null)
  ∧ normalizeField pyFloat (.arr [.num 5, .num 9]) = (pyFloat (.num 5)).map some :=
  ⟨(fun h => nomatch h),
   (c9_extra_elements_ignored pyFloat (.num 5) (.num 9) [] (fun h => nomatch h)).1⟩

/-- A successful `normalizeField` satisfies the spec's three-branch
rule. -/
theorem normalizeField_spec {α : Type} {conv : JVal → Except String α}
    {v : JVal} {r : Option α} (h : normalizeField conv v = .ok r) :
    SpecFieldRule conv v r := by
  refine ⟨?_, ?_, ?_⟩
  · rintro x xs rfl hnull
    cases x <;> simp_all [normalizeField]
  · intro hnull hnotarr
    cases v
    · exact absurd rfl hnull
    case arr xs => exact absurd rfl (hnotarr xs)
    all_goals simp_all [normalizeField]
  · rintro (rfl | rfl | ⟨xs, rfl⟩) <;> simp_all [normalizeField]

/-- C1: on the success path of the transform, each of the four named
sensor fields (`ph` with alternate spelling `pH`, `rpm`, `tcd`,
`temperatura`) obeys the spec's three-branch normalization rule with
its target conversion (float for `ph`/`tcd`/`temperatura`, int for
`rpm`). -/
theorem c1_field_normalization {data : Payload} {eq : Option String}
    {now : DateTime} {t : Transformed} {sd : List (String × JVal)}
    (hsd : getSensorFields data = .ok sd)
    (ht : transformBody data eq now = .ok t) :
    SpecFieldRule pyFloat (phRaw sd) t.ph
  ∧ SpecFieldRule pyInt (rpmRaw sd) t.rpm
  ∧ SpecFieldRule pyFloat (tcdRaw sd) t.tcd
  ∧ SpecFieldRule pyFloat (tempRaw sd) t.temperatura := by
  obtain ⟨sd', hsd', hf, -⟩ := transformBody_ok_inv ht
  obtain rfl : sd = sd' := by
    rw [hsd] at hsd'
    exact (Except.ok.injEq _ _).mp hsd'
  obtain ⟨h1, h2, h3, h4⟩ := transformFields_ok_inv hf
  exact ⟨normalizeField_spec h1, normalizeField_spec h2,
    normalizeField_spec h3, normalizeField_spec h4⟩

/-- Witness for C1 at the concrete record
`{"d": {"pH": [7]}, "ts": "2025-08-31 10:00:00"}`. -/
theorem c1_field_normalization_witness :
    SpecFieldRule pyFloat (phRaw [("pH", JVal.arr [.num 7])]) (some 7)
  ∧ SpecFieldRule pyInt (rpmRaw [("pH", JVal.arr [.num 7])]) none := by
  have h := @c1_field_normalization
    [("d", .obj [("pH", .arr [.num 7])]), ("ts", .str "2025-08-31 10:00:00")]
    (some "E1") ⟨2026, 1, 2, 3, 4, 5⟩
    { ph := some 7, rpm := none, tcd := none, temperatura := none,
      timestamp := .str "2025-08-31 10:00:00", equipment := some "E1",
      partition_year := "2025", partition_month := "08",
      partition_day := "31", partition_hour := "10" }
    [("pH", .arr [.num 7])] rfl rfl
  exact ⟨h.1, h.2.1⟩

/-- C4 counterexample: for the record
`{"ts": "2025-08-31 10:00:00", "d": {"rpm": "not-a-number"}}`
processed at an instant in 2026, the fallback record keeps the
original timestamp but its partition keys come from the processing
instant (`"2026"`), not from the best-effort timestamp (`"2025"`) as
the claim states. -/
theorem c4_counterexample :
    (transform_sensor_data_with_partitioning
        [("ts", .str "2025-08-31 10:00:00"),
         ("d", .obj [("rpm", .str "not-a-number")])]
        (some "E1") ⟨2026, 1, 2, 3, 4, 5⟩).timestamp =
      .str "2025-08-31 10:00:00"
  ∧ (transform_sensor_data_with_partitioning
        [("ts", .str "2025-08-31 10:00:00"),
         ("d", .obj [("rpm", .str "not-a-number")])]
        (some "E1") ⟨2026, 1, 2, 3, 4, 5⟩).partition_year = "2026"
  ∧ "2026" ≠ "2025" :=
  ⟨rfl, rfl, by decide⟩

/-- C4 (amended): when any error occurs inside the transform body,
the transformer returns the total-failure fallback record — all four
numeric fields absent, the best-effort timestamp (original if
available else the current instant), the already-resolved equipment
id — with partition keys derived from the current processing instant
(not from the best-effort timestamp); the record is still counted
`Ok` in the batch result. -/
theorem c4_total_failure_fallback (data : Payload) (eq : Option String)
    (now : DateTime) (e : String)
    (h : transformBody data eq now = .error e) :
    transform_sensor_data_with_partitioning data eq now =
      fallbackRecord data eq now
  ∧ (fallbackRecord data eq now).ph = none
  ∧ (fallbackRecord data eq now).rpm = none
  ∧ (fallbackRecord data eq now).tcd = none
  ∧ (fallbackRecord data eq now).temperatura = none
  ∧ (fallbackRecord data eq now).timestamp = tsValue data now
  ∧ (fallbackRecord data eq now).equipment = eq
  ∧ (fallbackRecord data eq now).partition_year = fmtYear now.year
  ∧ (fallbackRecord data eq now).partition_month = pad2 now.month
  ∧ (fallbackRecord data eq now).partition_day = pad2 now.day
  ∧ (fallbackRecord data eq now).partition_hour = pad2 now.hour
  ∧ ∀ recId, extract_equipment_id data = .ok eq →
      processRecord now ⟨recId, .ok data⟩ =
        ⟨recId, "Ok", some (fallbackRecord data eq now)⟩ := by
  refine ⟨?_, rfl, rfl, rfl, rfl, rfl, rfl, rfl, rfl, rfl, rfl, ?_⟩
  · unfold transform_sensor_data_with_partitioning
    rw [h]
  · intro recId hx
    have hfb : transform_sensor_data_with_partitioning data eq now =
        fallbackRecord data eq now := by
      unfold transform_sensor_data_with_partitioning
      rw [h]
    unfold processRecord
    simp only [Except.bind, hx, Except.map, hfb]

/-- Witness for C4 (amended) at the same shape of failing record
(conversion failure on `rpm`), at an instant in 2027. -/
theorem c4_total_failure_fallback_witness :
    transform_sensor_data_with_partitioning
        [("ts", .str "2025-08-31 10:00:00"),
         ("d", .obj [("rpm", .str "nan?")])]
        (some "UNKNOWN") ⟨2027, 11, 3, 4, 5, 6⟩ =
      fallbackRecord
        [("ts", .str "2025-08-31 10:00:00"),
         ("d", .obj [("rpm", .str "nan?")])]
        (some "UNKNOWN") ⟨2027, 11, 3, 4, 5, 6⟩
  ∧ processRecord ⟨2027, 11, 3, 4, 5, 6⟩
        ⟨"rec-1", .ok [("ts", .str "2025-08-31 10:00:00"),
                       ("d", .obj [("rpm", .str "nan?")])]⟩ =
      ⟨"rec-1", "Ok", some (fallbackRecord
        [("ts", .str "2025-08-31 10:00:00"),
         ("d", .obj [("rpm", .str "nan?")])]
        (some "UNKNOWN") ⟨2027, 11, 3, 4, 5, 6⟩)⟩ := by
  have h := c4_total_failure_fallback
    [("ts", .str "2025-08-31 10:00:00"), ("d", .obj [("rpm", .str "nan?")])]
    (some "UNKNOWN") ⟨2027, 11, 3, 4, 5, 6⟩
    "invalid literal for int() with base 10: nan?" rfl
  exact ⟨h.1, h.2.2.2.2.2.2.2.2.2.2.2 "rec-1" rfl⟩

/-- C5 counterexample: a record whose timestamp
`"2024-12-25 23:59:59"` matches the fixed format but whose `tcd`
value fails conversion gets fallback partition keys from the
processing instant (hour `"08"`, year `"2030"`), not from the
timestamp, refuting the claim's universal first half. -/
theorem c5_counterexample :
    (transform_sensor_data_with_partitioning
        [("ts", .str "2024-12-25 23:59:59"),
         ("d", .obj [("tcd", .str "oops")])]
        (some "E2") ⟨2030, 6, 7, 8, 9, 10⟩).partition_hour = "08"
  ∧ (transform_sensor_data_with_partitioning
        [("ts", .str "2024-12-25 23:59:59"),
         ("d", .obj [("tcd", .str "oops")])]
        (some "E2") ⟨2030, 6, 7, 8, 9, 10⟩).partition_year = "2030"
  ∧ "08" ≠ "23" ∧ "2030" ≠ "2024" :=
  ⟨rfl, rfl, by decide, by decide⟩

/-- C5 (amended): on the success path of the transform, a timestamp
matching the fixed format yields partition keys equal to its
zero-padded components, and an unparsable timestamp yields partition
keys from the current instant; the fallback record's partition keys
also come from the current instant (so they are never absent); and a
transform error can only arise from the `d` access or a field
conversion, never from the timestamp. -/
theorem c5_partition_keys (data : Payload) (eq : Option String)
    (now : DateTime) :
    (∀ t s dt, transformBody data eq now = .ok t →
        tsValue data now = .str s → parseTimestamp s = some dt →
        t.partition_year = fmtYear dt.year ∧
        t.partition_month = pad2 dt.month ∧
        t.partition_day = pad2 dt.day ∧ t.partition_hour = pad2 dt.hour)
  ∧ (∀ t s, transformBody data eq now = .ok t →
        tsValue data now = .str s → parseTimestamp s = none →
        t.partition_year = fmtYear now.year ∧
        t.partition_month = pad2 now.month ∧
        t.partition_day = pad2 now.day ∧ t.partition_hour = pad2 now.hour)
  ∧ ((fallbackRecord data eq now).partition_year = fmtYear now.year ∧
      (fallbackRecord data eq now).partition_month = pad2 now.month ∧
      (fallbackRecord data eq now).partition_day = pad2 now.day ∧
      (fallbackRecord data eq now).partition_hour = pad2 now.hour)
  ∧ (∀ e, transformBody data eq now = .error e →
        (∃ e2, getSensorFields data = .error e2) ∨
        (∃ sd e2, getSensorFields data = .ok sd ∧
          transformFields sd = .error e2)) := by
  refine ⟨?_, ?_, ⟨rfl, rfl, rfl, rfl⟩, ?_⟩
  · intro t s dt ht hs hp
    obtain ⟨sd, -, -, -, -, hy, hm, hd, hh⟩ := transformBody_ok_inv ht
    rw [hs] at hy hm hd hh
    simp only [partitionParts, hp] at hy hm hd hh
    exact ⟨hy, hm, hd, hh⟩
  · intro t s ht hs hp
    obtain ⟨sd, -, -, -, -, hy, hm, hd, hh⟩ := transformBody_ok_inv ht
    rw [hs] at hy hm hd hh
    simp only [partitionParts, hp] at hy hm hd hh
    exact ⟨hy, hm, hd, hh⟩
  · intro e he
    unfold transformBody at he
    split at he
    · exact Or.inl ⟨_, by assumption⟩
    next sd hsd =>
      split at he
      · exact Or.inr ⟨sd, _, hsd, by assumption⟩
      · exact absurd he (by simp)

/-- Witness for C5 (amended) at the concrete record
`{"ts": "2025-08-31 10:00:00", "d": {}}` processed at an instant in
2026: partition keys equal the timestamp's zero-padded components. -/
theorem c5_partition_keys_witness :
    (transform_sensor_data_with_partitioning
        [("ts", .str "2025-08-31 10:00:00"), ("d", .obj [])]
        (some "E1") ⟨2026, 1, 2, 3, 4, 5⟩).partition_year = "2025"
  ∧ (transform_sensor_data_with_partitioning
        [("ts", .str "2025-08-31 10:00:00"), ("d", .obj [])]
        (some "E1") ⟨2026, 1, 2, 3, 4, 5⟩).partition_hour = "10" := by
  have h := (c5_partition_keys
    [("ts", .str "2025-08-31 10:00:00"), ("d", .obj [])]
    (some "E1") ⟨2026, 1, 2, 3, 4, 5⟩).1
    { ph := none, rpm := none, tcd := none, temperatura := none,
      timestamp := .str "2025-08-31 10:00:00", equipment := some "E1",
      partition_year := "2025", partition_month := "08",
      partition_day := "31", partition_hour := "10" }
    "2025-08-31 10:00:00" ⟨2025, 8, 31, 10, 0, 0⟩ rfl rfl (by decide)
  exact ⟨h.1, h.2.2.2⟩

/-- C3 counterexample: with `topic = "nodelimiter"` (splits into one
segment) and `deviceId = "DEV7"`, the code resolves the equipment id
to the null marker (`None`), not to the device identifier as the
claim states. -/
theorem c3_counterexample :
    extract_equipment_id [("topic", .str "nodelimiter"), ("deviceId", .str "DEV7")] =
      .ok none
  ∧ (Except.ok none : Except String (Option String)) ≠ .ok (some "DEV7") := by
  exact ⟨rfl, by simp⟩

/-- C3 (amended): the priority chain is explicit field, then the
second segment of a slash-split `topic` when the split has at least
two segments; when `topic` is present but splits into fewer than two
segments the resolved id is the null marker (`None`) — `deviceId` and
`"UNKNOWN"` are only reached when `topic` is absent. -/
theorem c3_priority_with_fallthrough (data : Payload) :
    (∀ v, pget data "equipment" = some v →
        extract_equipment_id data = .ok (some (pyStr v)))
  ∧ (∀ s, pget data "equipment" = none → pget data "topic" = some (.str s) →
        (2 ≤ (pySplit s '/').length →
          extract_equipment_id data = .ok (some ((pySplit s '/').get! 1)))
      ∧ ((pySplit s '/').length < 2 → extract_equipment_id data = .ok none))
  ∧ (∀ v, pget data "equipment" = none → pget data "topic" = none →
        pget data "deviceId" = some v →
        extract_equipment_id data = .ok (some (pyStr v)))
  ∧ (pget data "equipment" = none → pget data "topic" = none →
        pget data "deviceId" = none →
        extract_equipment_id data = .ok (some "UNKNOWN")) := by
  refine ⟨?_, ?_, ?_, ?_⟩
  · intro v hv
    unfold extract_equipment_id
    rw [hv]
  · intro s he ht
    constructor
    · intro hlen
      unfold extract_equipment_id
      rw [he, ht]
      simp [hlen]
    · intro hlen
      unfold extract_equipment_id
      rw [he, ht]
      simp [Nat.not_le.mpr hlen]
  · intro v he ht hd
    unfold extract_equipment_id
    rw [he, ht, hd]
  · intro he ht hd
    unfold extract_equipment_id
    rw [he, ht, hd]

/-- Witness for C3 (amended) at the empty payload: every lookup
misses and the resolution falls through to `"UNKNOWN"`. -/
theorem c3_priority_with_fallthrough_witness :
    extract_equipment_id [] = .ok (some "UNKNOWN") :=
  (c3_priority_with_fallthrough []).2.2.2 rfl rfl rfl

/-- Inversion of a successful `preSend`: the prepared audit record is
not yet marked sent and carries neither a message id nor an error, and
the timestamp piece is the `ts` lookup with the current instant as
default. -/
theorem preSend_ok_inv {cfg : AlarmConfig} {now : DateTime} {event : JVal}
    {p : AlarmPieces} (h : preSend cfg now event = .ok p) :
    p.record.email_sent = false ∧ p.record.ses_message_id = none ∧
    p.record.email_error = none ∧
    jget event "ts" (.str (fmtTs now)) = .ok p.timestamp := by
  unfold preSend at h
  split at h
  · simp at h
  split at h
  · simp at h
  split at h
  · simp at h
  split at h
  · simp at h
  split at h
  · simp at h
  next timestamp hts =>
    split at h
    · simp at h
    split at h
    · simp at h
    dsimp only at h
    split at h
    · simp at h
    obtain rfl : _ = p := (Except.ok.injEq _ _).mp h
    exact ⟨rfl, rfl, rfl, hts⟩

/-- C7: the alarm notifier always returns a structured response whose
status code is 200 or 500; every 500 response carries the
`{'error': ..., 'mode': 'TEST'}` body built from the caught
exception's text. -/
theorem c7_structured_response (cfg : AlarmConfig) (now : DateTime)
    (sesOutcome : Except String String) (s3Outcome : Except String Unit)
    (event : JVal) :
    (alarm_lambda_handler cfg now sesOutcome s3Outcome event).response.statusCode = 200
  ∨ ((alarm_lambda_handler cfg now sesOutcome s3Outcome event).response.statusCode = 500
      ∧ ∃ e, (alarm_lambda_handler cfg now sesOutcome s3Outcome event).response =
          errorResponse e) := by
  unfold alarm_lambda_handler
  cases hps : preSend cfg now event with
  | error e => exact Or.inr ⟨rfl, e, rfl⟩
  | ok p =>
    cases s3Outcome with
    | error e2 => exact Or.inr ⟨rfl, e2, rfl⟩
    | ok u => exact Or.inl rfl

/-- C8: once the handler reaches the delivery step, a mail failure
does not abort the invocation — the audit record is still written,
with the delivered flag false and the error text recorded — and the
response status is 200 for either delivery outcome; on success the
delivery identifier is recorded and the delivered flag is true. -/
theorem c8_delivery_failure_isolated (cfg : AlarmConfig) (now : DateTime)
    (event : JVal) (p : AlarmPieces)
    (hp : preSend cfg now event = .ok p) (mid err : String) :
    (alarm_lambda_handler cfg now (.error err) (.ok ()) event).response.statusCode = 200
  ∧ (alarm_lambda_handler cfg now (.error err) (.ok ()) event).putAttempt =
      some ⟨cfg.s3Bucket, p.s3_key, { p.record with email_error := some err }⟩
  ∧ ({ p.record with email_error := some err } : AlarmAudit).email_sent = false
  ∧ ({ p.record with email_error := some err } : AlarmAudit).email_error = some err
  ∧ (alarm_lambda_handler cfg now (.ok mid) (.ok ()) event).response.statusCode = 200
  ∧ (alarm_lambda_handler cfg now (.ok mid) (.ok ()) event).putAttempt =
      some ⟨cfg.s3Bucket, p.s3_key,
        { p.record with email_sent := true, ses_message_id := some mid }⟩
  ∧ ({ p.record with email_sent := true, ses_message_id := some mid } : AlarmAudit).email_sent = true := by
  have hflag := (preSend_ok_inv hp).1
  unfold alarm_lambda_handler
  rw [hp]
  refine ⟨rfl, rfl, ?_, rfl, rfl, rfl, rfl⟩
  exact hflag

set_option maxHeartbeats 4000000 in
/-- Witness for C8 at the minimal event `{}` (mail rejected vs mail
accepted, audit write succeeding in both runs). -/
theorem c8_delivery_failure_isolated_witness :
    (alarm_lambda_handler ⟨"biorreator-data-tcc", "alarms/", "biorreator.xxx@gmail.com"⟩
        ⟨2025, 8, 31, 15, 30, 0⟩ (.error "MessageRejected") (.ok ())
        (.obj [])).response.statusCode = 200
  ∧ (alarm_lambda_handler ⟨"biorreator-data-tcc", "alarms/", "biorreator.xxx@gmail.com"⟩
        ⟨2025, 8, 31, 15, 30, 0⟩ (.ok "ses-msg-0101") (.ok ())
        (.obj [])).response.statusCode = 200 := by
  have h := c8_delivery_failure_isolated
    ⟨"biorreator-data-tcc", "alarms/", "biorreator.xxx@gmail.com"⟩
    ⟨2025, 8, 31, 15, 30, 0⟩ (.obj [])
    ((preSend ⟨"biorreator-data-tcc", "alarms/", "biorreator.xxx@gmail.com"⟩
      ⟨2025, 8, 31, 15, 30, 0⟩ (.obj [])).toOption.get!)
    rfl "ses-msg-0101" "MessageRejected"
  exact ⟨h.1, h.2.2.2.2.1⟩

/-- C10: an empty or non-list email array falls back to exactly the
hard-coded literal recipient, and the recipient list computed by the
handler is independent of the configured sender (and of the rest of
the environment configuration). -/
theorem c10_fallback_recipient (email_array : JVal)
    (h : email_array = .arr [] ∨ ∀ xs, email_array ≠ .arr xs) :
    resolvedRecipients email_array = [.str "biorreator.xxx@gmail.com"]
  ∧ ∀ (cfgA cfgB : AlarmConfig) (now : DateTime) (event : JVal),
      (preSend cfgA now event).map (fun p => p.recipients) =
        (preSend cfgB now event).map (fun p => p.recipients) := by
  constructor
  · rcases h with rfl | h
    · rfl
    · cases email_array
      case arr xs => exact absurd rfl (h xs)
      all_goals rfl
  · intro cfgA cfgB now event
    unfold preSend
    cases jget event "d" (.obj [])
    case error => rfl
    case ok d_data =>
    dsimp only
    cases jget d_data "alarm" (.arr [])
    case error => rfl
    case ok alarm_array =>
    dsimp only
    cases jget d_data "email" (.arr [])
    case error => rfl
    case ok email_arr =>
    dsimp only
    cases alarmMessageOf alarm_array
    case error => rfl
    case ok alarm_message =>
    dsimp only
    cases jget event "ts" (.str (fmtTs now))
    case error => rfl
    case ok timestamp =>
    dsimp only
    cases jget event "equipment" (.str "unknown")
    case error => rfl
    case ok equipment =>
    dsimp only
    cases strptimeJ timestamp
    case error => rfl
    case ok dt =>
    dsimp only
    cases joinEmails (resolvedRecipients email_arr)
    case error => rfl
    case ok joined => rfl

/-- Witness for C10 at the empty email array. -/
theorem c10_fallback_recipient_witness :
    resolvedRecipients (.arr []) = [.str "biorreator.xxx@gmail.com"] :=
  (c10_fallback_recipient (.arr []) (Or.inl rfl)).1

/-- C6 counterexample: an alarm event whose timestamp string
`"31/08/2025 15:30"` is malformed yields a 500 response — the parse
error is surfaced, not silently recovered, contradicting the claim
that such an event still yields a success response. -/
theorem c6_counterexample :
    (alarm_lambda_handler
        ⟨"biorreator-data-tcc", "alarms/", "biorreator.xxx@gmail.com"⟩
        ⟨2025, 8, 31, 15, 30, 0⟩ (.ok "mid-1") (.ok ())
        (.obj [("ts", .str "31/08/2025 15:30")])).response.statusCode = 500
  ∧ (500 : Nat) ≠ 200 :=
  ⟨rfl, by decide⟩

/-- C6 (amended): the Sensor Transformer silently recovers from a
timestamp-parse error by deriving partition keys from the current
instant while keeping the original timestamp value; the Alarm
Notifier substitutes the current instant only when the timestamp is
absent — a malformed timestamp string propagates to its top-level
handler and produces a 500 response, not a success. -/
theorem c6_timestamp_error_handling :
    (∀ (data : Payload) (eq : Option String) (now : DateTime)
        (t : Transformed) (s : String),
        pget data "ts" = some (.str s) → parseTimestamp s = none →
        transformBody data eq now = .ok t →
        t.timestamp = .str s ∧
        t.partition_year = fmtYear now.year ∧
        t.partition_month = pad2 now.month ∧
        t.partition_day = pad2 now.day ∧ t.partition_hour = pad2 now.hour)
  ∧ (∀ (cfg : AlarmConfig) (now : DateTime) (event : JVal)
        (fs : List (String × JVal)) (p : AlarmPieces),
        event = .obj fs → pget fs "ts" = none →
        preSend cfg now event = .ok p → p.timestamp = .str (fmtTs now))
  ∧ (∀ (cfg : AlarmConfig) (now : DateTime)
        (sesOutcome : Except String String) (s3Outcome : Except String Unit)
        (s : String), parseTimestamp s = none →
        (alarm_lambda_handler cfg now sesOutcome s3Outcome
          (.obj [("ts", .str s)])).response.statusCode = 500) := by
  refine ⟨?_, ?_, ?_⟩
  · intro data eq now t s hts hp ht
    have hv : tsValue data now = .str s := by
      unfold tsValue
      rw [hts]
      rfl
    obtain ⟨sd, -, -, htv, -, hy, hm, hd, hh⟩ := transformBody_ok_inv ht
    rw [hv] at htv hy hm hd hh
    simp only [partitionParts, hp] at hy hm hd hh
    exact ⟨htv, hy, hm, hd, hh⟩
  · rintro cfg now event fs p rfl hts hp
    have h := (preSend_ok_inv hp).2.2.2
    simp only [jget, hts, Option.getD, Except.ok.injEq] at h
    exact h.symm
  · intro cfg now sesOutcome s3Outcome s hp
    have hpre : preSend cfg now (.obj [("ts", .str s)]) =
        .error ("time data does not match format: " ++ s) := by
      unfold preSend
      simp [jget, pget, alarmMessageOf, pyTruthy, strptimeJ, hp]
    unfold alarm_lambda_handler
    rw [hpre]
    rfl

/-- Witness for C6 (amended): a record with the unparsable timestamp
`"not-a-date"` transformed at a 2026 instant keeps the timestamp but
takes its partition year from the instant, and an alarm event with
that timestamp yields status 500. -/
theorem c6_timestamp_error_handling_witness :
    ((transform_sensor_data_with_partitioning
        [("ts", .str "not-a-date")] (some "E1")
        ⟨2026, 1, 2, 3, 4, 5⟩).partition_year = "2026")
  ∧ (alarm_lambda_handler
        ⟨"biorreator-data-tcc", "alarms/", "biorreator.xxx@gmail.com"⟩
        ⟨2025, 8, 31, 15, 30, 0⟩ (.ok "mid-2") (.ok ())
        (.obj [("ts", .str "not-a-date")])).response.statusCode = 500 := by
  have h1 := c6_timestamp_error_handling.1
    [("ts", .str "not-a-date")] (some "E1") ⟨2026, 1, 2, 3, 4, 5⟩
    { ph := none, rpm := none, tcd := none, temperatura := none,
      timestamp := .str "not-a-date", equipment := some "E1",
      partition_year := "2026", partition_month := "01",
      partition_day := "02", partition_hour := "03" }
    "not-a-date" rfl (by decide) rfl
  have h2 := c6_timestamp_error_handling.2.2
    ⟨"biorreator-data-tcc", "alarms/", "biorreator.xxx@gmail.com"⟩
    ⟨2025, 8, 31, 15, 30, 0⟩ (.ok "mid-2") (.ok ())
    "not-a-date" (by decide)
  exact ⟨h1.2.1, h2⟩
